import Mathlib

/-!
Shallow embedding of `spyder/plugins/run/widgets.py` (run-configuration
dialogs) and verification of the specification's claims about it.

Python dicts are embedded as association lists, Qt combo boxes as an item
list plus a current index (with Qt's clamping of invalid indices to `-1`),
optional/absent values as `Option`, and Python exceptions as `Option`
(`none`) or `Except` results.  The `uuid4()` generator, the file-system
`isdir` test, the directory picker, and the caller-supplied models are
threaded as explicit oracle inputs.
-/

namespace Spyder

/-- WorkingDirSource enum from `spyder.plugins.run.api`: the three
working-directory policies. -/
inductive WorkingDirSource where
  | ConfigurationDirectory
  | CurrentDirectory
  | CustomDirectory
deriving DecidableEq, Repr

/-- Executor parameter mappings (Python `dict`) are embedded as association
lists from string keys to values; only key structure and whole-value
equality matter to the dialogs. -/
abbrev Config := List (String × Nat)

/-- Python `dict.keys() == dict.keys()` compares key *sets*; embedded as
mutual containment of the key lists. -/
def keysEqBool (a b : Config) : Bool :=
  let ka := a.map Prod.fst
  let kb := b.map Prod.fst
  ka.all (fun k => kb.contains k) && kb.all (fun k => ka.contains k)

/-- Python truthiness of a dict used by `x or y`: an empty dict is falsy. -/
def orElseDict (a : Option Config) (b : Config) : Config :=
  match a with
  | none => b
  | some m => if m.isEmpty then b else m

/-- WorkingDirOpts TypedDict from `spyder.plugins.run.api`. -/
structure WorkingDirOpts where
  source : WorkingDirSource
  path : Option String
deriving DecidableEq, Repr

/-- RunExecutionParameters TypedDict from `spyder.plugins.run.api`. -/
structure RunExecutionParameters where
  working_dir : WorkingDirOpts
  executor_params : Option Config
deriving DecidableEq, Repr

/-- ExtendedRunExecutionParameters TypedDict from `spyder.plugins.run.api`:
`file_uuid = none` marks a global (cross-file) preset. -/
structure ExtendedRunExecutionParameters where
  uuid : String
  name : String
  params : RunExecutionParameters
  file_uuid : Option String
deriving DecidableEq, Repr

/-- Modelled from the spec: the injected configuration-widget collaborator
(`RunExecutorConfigurationGroup` and executor-specific subclasses live in
`spyder.plugins.run.api`, outside the sources).  It exposes
`get_default_configuration` (a fixed mapping), `get_configuration` (its
current mapping) and `set_configuration` (stores the mapping it is given);
a freshly constructed widget holds its default configuration.  The current
mapping is an `Option` because the dialogs can pass `None` to
`set_configuration`. -/
structure ConfigWidget where
  default_conf : Config
  current_conf : Option Config
deriving DecidableEq, Repr

/-- Modelled from the spec: constructing a configuration widget
(`ConfigWidget(self, context, extension, metadata)`); it starts out showing
its default configuration. -/
def ConfigWidget.fresh (d : Config) : ConfigWidget :=
  { default_conf := d, current_conf := some d }

/-- Modelled from the spec: `set_configuration` stores the given mapping. -/
def ConfigWidget.set_configuration (w : ConfigWidget) (c : Option Config) :
    ConfigWidget :=
  { w with current_conf := c }

/-- SupportedExecutionRunConfiguration metadata: `requires_cwd` plus the
optional configuration-widget factory.  A factory is embedded by the
default configuration of the widget it constructs; `none` means the
fallback generic `RunExecutorConfigurationGroup` (empty defaults) is
used. -/
structure SupportedExecutionRunConfiguration where
  requires_cwd : Bool
  configuration_widget : Option Config
deriving DecidableEq, Repr

/-- RunDialogStatus flag constants (`widgets.py`, lines 45-48). -/
def RunDialogStatus.Close : Nat := 0

/-- RunDialogStatus.Save flag. -/
def RunDialogStatus.Save : Nat := 1

/-- RunDialogStatus.Run flag. -/
def RunDialogStatus.Run : Nat := 2

/-- Qt combo box: item list plus current index (`-1` = no selection). -/
structure ComboBox where
  items : List String
  currentIndex : Int
deriving DecidableEq, Repr

/-- Qt `QComboBox.setCurrentIndex`: an index outside `[0, count)` clears
the selection (current index becomes `-1`). -/
def ComboBox.setCurrentIndex (c : ComboBox) (i : Int) : ComboBox :=
  if 0 ≤ i ∧ i < c.items.length then { c with currentIndex := i }
  else { c with currentIndex := -1 }

/-- Qt `QComboBox.itemText`: empty string for an invalid index. -/
def ComboBox.itemText (c : ComboBox) (i : Int) : String :=
  if 0 ≤ i ∧ i < c.items.length then c.items.getD i.toNat "" else ""

/-- Python dict lookup `d[k]` as used on the embedded association lists. -/
def dictFindBy {α β : Type} [DecidableEq α] (d : List (α × β)) (k : α) :
    Option β :=
  (d.find? (fun kv => kv.1 = k)).map Prod.snd

/-- Python list indexing `l[i]` for the embedded caller-supplied models:
`none` embeds an IndexError.  (Negative indices do not arise in the claims
settled here.) -/
def listGetInt {α : Type} (l : List α) (i : Int) : Option α :=
  if i < 0 then none else l.get? i.toNat

/-- The three working-directory radio buttons plus the fixed-path text
field shared by both dialogs. -/
structure WdirControls where
  file_dir_radio : Bool
  cwd_radio : Bool
  fixed_dir_radio : Bool
  wd_edit : String
deriving DecidableEq, Repr

/-- Radio/path write block, identical in
`ExecutionParametersDialog.context_changed` (lines 342-356) and
`RunDialog.update_parameter_set` (lines 637-651): drive the three radio
buttons and the path field from a `WorkingDirOpts`.  In the
`CustomDirectory` branch the code calls `setText(path)`; `path = None`
there raises a TypeError, embedded as `none`. -/
def setWdirControls (opts : WorkingDirOpts) : Option WdirControls :=
  match opts.source with
  | .ConfigurationDirectory =>
      some { file_dir_radio := true, cwd_radio := false,
             fixed_dir_radio := false, wd_edit := "" }
  | .CurrentDirectory =>
      some { file_dir_radio := false, cwd_radio := true,
             fixed_dir_radio := false, wd_edit := "" }
  | .CustomDirectory =>
      match opts.path with
      | none => none
      | some p =>
          some { file_dir_radio := false, cwd_radio := false,
                 fixed_dir_radio := true, wd_edit := p }

/-- Radio/path read block, identical in
`ExecutionParametersDialog.accept` (lines 397-407) and `RunDialog.accept`
(lines 764-774): read the selectors and path field back into a
`WorkingDirOpts`, defaulting to `CustomDirectory` when neither of the
first two radios is checked. -/
def readWdirControls (w : WdirControls) : WorkingDirOpts :=
  if w.file_dir_radio then
    { source := .ConfigurationDirectory, path := none }
  else if w.cwd_radio then
    { source := .CurrentDirectory, path := none }
  else
    { source := .CustomDirectory, path := some w.wd_edit }

/-- Python `list.index` / first match of a predicate in a list: index of
the first element satisfying `p`, or `none` (a raised ValueError / a `-1`
result, depending on the call site). -/
def firstIdxWhere {α : Type} (p : α → Bool) : List α → Option Nat
  | [] => none
  | x :: xs => if p x then some 0 else (firstIdxWhere p xs).map (· + 1)

/-- State of the single-use editor `ExecutionParametersDialog`: the
constructor arguments it stores, the relevant widgets, and the attributes
the handlers write.  `closed` records whether `QDialog.accept` was
reached; `ok_enabled` the OK button's enabled state. -/
structure ExecutionParametersDialog where
  executor_params :
    List ((String × String) × SupportedExecutionRunConfiguration)
  extensions : List String
  contexts : List (String × List String)
  default_params : Option ExtendedRunExecutionParameters
  extension : Option String
  context : Option String
  extension_combo : ComboBox
  context_combo : ComboBox
  selected_extension : String
  selected_context : String
  current_widget : Option ConfigWidget
  wdir : WdirControls
  executor_group_enabled : Bool
  wdir_group_enabled : Bool
  ok_enabled : Bool
  store_params_text : String
  placeholder_text : String
  status : Nat
  saved_conf : Option (String × String × ExtendedRunExecutionParameters)
  closed : Bool
deriving DecidableEq, Repr

/-- `ExecutionParametersDialog.extension_changed` (lines 274-288): guard
on the no-selection sentinel, repopulate the context combo from the
`contexts` mapping, and select index 0 or the preselected context's index.
`none` embeds a raised KeyError (`self.contexts[...]`) or ValueError
(`contexts.index(self.context)`). -/
def ExecutionParametersDialog.extension_changed
    (st : ExecutionParametersDialog) (index : Int) :
    Option ExecutionParametersDialog :=
  if index < 0 then some st
  else
    let selected_extension := st.extension_combo.itemText index
    match dictFindBy st.contexts selected_extension with
    | none => none
    | some contexts =>
        let cc : ComboBox := { items := [], currentIndex := -1 }
        let cc := { cc with items := contexts }
        let cc := cc.setCurrentIndex (-1)
        let context_index? : Option Int :=
          match st.context with
          | none => some 0
          | some ctx =>
              (firstIdxWhere (fun c => c == ctx) contexts).map
                (fun k => (k : Int))
        match context_index? with
        | none => none
        | some context_index =>
            some { st with
                   selected_extension := selected_extension,
                   context_combo := cc.setCurrentIndex context_index }

/-- `ExecutionParametersDialog.context_changed` (lines 290-363): guard on
the no-selection sentinel, look up executor metadata for the selected
(extension, context), build the configuration widget (the generic
fallback when the metadata carries none), toggle group enablement, apply
the prior parameter set only when its key set matches the widget
defaults, and drive the working-directory controls.  `none` embeds a
raised KeyError (metadata lookup) or TypeError (`setText(None)`). -/
def ExecutionParametersDialog.context_changed
    (st : ExecutionParametersDialog) (index : Int) :
    Option ExecutionParametersDialog :=
  if index < 0 then some st
  else
    let selected_context := st.context_combo.itemText index
    match dictFindBy st.executor_params
        (st.selected_extension, selected_context) with
    | none => none
    | some executor_conf_metadata =>
        let requires_cwd := executor_conf_metadata.requires_cwd
        let widget_default : Config :=
          match executor_conf_metadata.configuration_widget with
          | some d => d
          | none => []
        let executor_group_enabled :=
          executor_conf_metadata.configuration_widget.isSome
        let wdir_group_enabled := requires_cwd
        let current_widget := ConfigWidget.fresh widget_default
        let working_dir_params : WorkingDirOpts :=
          { source := WorkingDirSource.ConfigurationDirectory, path := none }
        let exec_params : RunExecutionParameters :=
          { working_dir := working_dir_params, executor_params := none }
        let default_params := current_widget.default_conf
        let (working_dir_params, exec_params) :=
          match st.default_params with
          | some dp => (dp.params.working_dir, dp.params)
          | none => (working_dir_params, exec_params)
        let params_set := orElseDict exec_params.executor_params default_params
        let current_widget :=
          if keysEqBool params_set default_params then
            current_widget.set_configuration (some params_set)
          else current_widget
        match setWdirControls working_dir_params with
        | none => none
        | some wdir =>
            let ok_enabled :=
              if ¬ executor_group_enabled ∧ ¬ wdir_group_enabled then false
              else st.ok_enabled
            some { st with
                   selected_context := selected_context,
                   current_widget := some current_widget,
                   executor_group_enabled := executor_group_enabled,
                   wdir_group_enabled := wdir_group_enabled,
                   wdir := wdir,
                   ok_enabled := ok_enabled }

/-- `ExecutionParametersDialog.accept` (lines 393-434): OR the Save flag
into the status, read the widget configuration and the working-directory
controls back, refuse (early return, placeholder prompt) on an empty name,
otherwise record the result triple and close via `super().accept()`.
`freshUuid` is the `uuid4()` oracle; `none` embeds the AttributeError of
`self.current_widget.get_configuration()` when no widget exists. -/
def ExecutionParametersDialog.accept
    (st : ExecutionParametersDialog) (freshUuid : String) :
    Option ExecutionParametersDialog :=
  let st := { st with status := st.status ||| RunDialogStatus.Save }
  match st.current_widget with
  | none => none
  | some w =>
      let widget_conf := w.current_conf
      let cwd_opts := readWdirControls st.wdir
      let exec_params : RunExecutionParameters :=
        { working_dir := cwd_opts, executor_params := widget_conf }
      let uuid :=
        match st.default_params with
        | some dp => dp.uuid
        | none => freshUuid
      let name := st.store_params_text
      if name = "" then
        some { st with placeholder_text := "Set a name here to proceed!" }
      else
        let ext_exec_params : ExtendedRunExecutionParameters :=
          { uuid := uuid, name := name, params := exec_params,
            file_uuid := none }
        some { st with
               saved_conf := some (st.selected_extension, st.selected_context,
                                   ext_exec_params),
               closed := true }

/-- Python exceptions raised by the embedded RunDialog handlers. -/
inductive PyError where
  | attributeError
  | keyError
  | indexError
  | typeError
deriving DecidableEq, Repr

/-- Metadata record returned by the run-configuration model
(`get_selected_metadata` / `get_metadata`). -/
structure RunConfigMetadata where
  context : String
  input_extension : String
  uuid : String
deriving DecidableEq, Repr

/-- Modelled from the spec: an entry of the caller-supplied parameter
model (a named preset, queryable by name/uuid/index; an entry may signal
"use defaults").  The model class itself lives outside the sources. -/
structure PresetEntry where
  uuid : String
  name : String
  set_defaults : Bool
  params : RunExecutionParameters
deriving DecidableEq, Repr

/-- The parameter model's ordered entry list (combo order). -/
abbrev ParameterModel := List PresetEntry

/-- Modelled from the spec: `parameter_model.get_parameters_index_by_name`
(index of the first preset with the given name, `-1` when absent). -/
def get_parameters_index_by_name (pm : ParameterModel) (name : String) :
    Int :=
  match firstIdxWhere (fun e => e.name == name) pm with
  | some n => (n : Int)
  | none => -1

/-- Modelled from the spec: `parameter_model.get_parameters_uuid_name`
(uuid and name of the preset at an index; `none` embeds an IndexError). -/
def get_parameters_uuid_name (pm : ParameterModel) (idx : Int) :
    Option (String × String) :=
  (listGetInt pm idx).map (fun e => (e.uuid, e.name))

/-- Modelled from the spec: `parameter_model.get_executor_parameters`
(the "use defaults" flag and stored parameters at an index). -/
def get_executor_parameters (pm : ParameterModel) (idx : Int) :
    Option (Bool × RunExecutionParameters) :=
  (listGetInt pm idx).map (fun e => (e.set_defaults, e.params))

/-- Modelled from the spec: `parameter_model.set_parameters` rebuilds the
model's entries from a stored-parameters dict. -/
def set_parameters
    (stored : List (String × ExtendedRunExecutionParameters)) :
    ParameterModel :=
  stored.map (fun kv =>
    { uuid := kv.2.uuid, name := kv.2.name, set_defaults := false,
      params := kv.2.params })

/-- Modelled from the spec: `parameter_model.get_parameters_index_by_uuid`
(index of the preset with the given uuid, `-1` for `None` or no match). -/
def get_parameters_index_by_uuid (pm : ParameterModel)
    (u : Option String) : Int :=
  match u with
  | none => -1
  | some uu =>
      match firstIdxWhere (fun e => e.uuid == uu) pm with
      | some n => (n : Int)
      | none => -1

/-- Modelled from the spec: the caller-supplied run-configuration model,
only read by the dialog.  `stored_run_params` embeds
`get_run_configuration_parameters(uuid, executor)["params"]` and
`last_used` embeds `get_last_used_execution_params`. -/
structure RunConfModel where
  metadata_by_index : List RunConfigMetadata
  selected_metadata : RunConfigMetadata
  known_uuids : List String
  stored_run_params :
    List ((String × String) × List (String × ExtendedRunExecutionParameters))
  last_used : List ((String × String) × Option String)
deriving DecidableEq, Repr

/-- Modelled from the spec: `get_last_used_execution_params` returns the
last-used preset uuid for a (file, executor) pair, or `None`. -/
def RunConfModel.get_last_used_execution_params (m : RunConfModel)
    (uuid executor_name : String) : Option String :=
  (dictFindBy m.last_used (uuid, executor_name)).getD none

/-- Stored-preset filter in `RunDialog.display_executor_configuration`
(lines 693-696): keep exactly the global presets (`file_uuid = None`) and
those scoped to the current file's uuid. -/
def filterStoredParams
    (stored : List (String × ExtendedRunExecutionParameters))
    (uuid : String) : List (String × ExtendedRunExecutionParameters) :=
  stored.filter
    (fun kv => kv.2.file_uuid == none || kv.2.file_uuid == some uuid)

/-- State of the file run dialog `RunDialog`: the three injected models,
the relevant widgets, and the attributes the handlers write.
`index_to_select : Option (Option Int)` tracks the deferred-selection
attribute: `none` means the attribute was never assigned (reading it
raises AttributeError), `some v` that it holds the Python value `v`
(`some none` = the attribute is `None`). -/
structure RunDialog where
  run_conf_model : RunConfModel
  executors_model : List (String × SupportedExecutionRunConfiguration)
  parameter_model : ParameterModel
  configuration_combo : ComboBox
  executor_combo : ComboBox
  parameters_combo : ComboBox
  name_params_text : String
  current_widget : Option ConfigWidget
  wdir : WdirControls
  executor_group_visible : Bool
  wdir_group_enabled : Bool
  index_to_select : Option (Option Int)
  status : Nat
  saved_conf : Option (String × String × ExtendedRunExecutionParameters)
  closed : Bool
deriving DecidableEq, Repr

/-- `RunDialog.__init__` (lines 440-456) plus the plain widget
construction of `setup` (lines 460-599): stores the three models, a
`None` current widget and a `Close` status, and creates empty combos and
fields.  Neither method assigns `index_to_select`, so that attribute is
absent (`none`).  (Signal cascades triggered inside `setup` by
`setModel`/`setCurrentIndex` are separate handler invocations, embedded
by the handler functions below.) -/
def RunDialog.init (rcm : RunConfModel)
    (em : List (String × SupportedExecutionRunConfiguration))
    (pm : ParameterModel) : RunDialog :=
  { run_conf_model := rcm,
    executors_model := em,
    parameter_model := pm,
    configuration_combo := { items := [], currentIndex := -1 },
    executor_combo := { items := [], currentIndex := -1 },
    parameters_combo := { items := [], currentIndex := -1 },
    name_params_text := "",
    current_widget := none,
    wdir := { file_dir_radio := false, cwd_radio := false,
              fixed_dir_radio := false, wd_edit := "" },
    executor_group_visible := true,
    wdir_group_enabled := true,
    index_to_select := none,
    status := RunDialogStatus.Close,
    saved_conf := none,
    closed := false }

/-- `RunDialog.update_parameter_set` (lines 617-651): guard on the
no-selection sentinel, read (and possibly consume) the one-shot
`index_to_select` attribute, fetch the preset at the index, load it (or
the widget defaults when it signals "use defaults") into the widget, and
drive the working-directory controls.  Reading the never-assigned
`index_to_select` raises AttributeError. -/
def RunDialog.update_parameter_set (st : RunDialog) (index : Int) :
    Except PyError RunDialog :=
  if index < 0 then .ok st
  else
    match st.index_to_select with
    | none => .error .attributeError
    | some its =>
        let (index, st) :=
          match its with
          | some i2 =>
              (i2, { st with
                       index_to_select := some none,
                       parameters_combo :=
                         st.parameters_combo.setCurrentIndex i2 })
          | none => (index, st)
        match get_executor_parameters st.parameter_model index with
        | none => .error .indexError
        | some (set_defaults, params) =>
            let working_dir_params := params.working_dir
            let stored_parameters := params.executor_params
            match st.current_widget with
            | none => .error .attributeError
            | some w =>
                let stored_parameters :=
                  if set_defaults then some w.default_conf
                  else stored_parameters
                let w := w.set_configuration stored_parameters
                match setWdirControls working_dir_params with
                | none => .error .typeError
                | some wc =>
                    .ok { st with current_widget := some w, wdir := wc }

/-- `RunDialog.display_executor_configuration` (lines 653-709): guard on
the `-1` sentinel, rebuild the configuration widget from the selected
executor's metadata, and—when the file is known—reload the parameter
model with the filtered stored presets, restore the last-used selection,
and record a deferred selection when the preset combo is empty.  The
parameter-model/combo view refresh of `set_parameters` is embedded
synchronously. -/
def RunDialog.display_executor_configuration (st : RunDialog)
    (index : Int) : Except PyError RunDialog :=
  if index = -1 then .ok st
  else
    let st := { st with current_widget := none }
    match listGetInt st.executors_model index with
    | none => .error .indexError
    | some ex =>
        let executor_name := ex.1
        let executor_info := ex.2
        let enable_cwd := executor_info.requires_cwd
        let widget_default : Config :=
          match executor_info.configuration_widget with
          | some d => d
          | none => []
        let executor_group_visible :=
          executor_info.configuration_widget.isSome
        let metadata := st.run_conf_model.selected_metadata
        let uuid := metadata.uuid
        let st := { st with
          wdir_group_enabled := enable_cwd,
          executor_group_visible := executor_group_visible,
          current_widget := some (ConfigWidget.fresh widget_default) }
        if uuid ∈ st.run_conf_model.known_uuids then
          match dictFindBy st.run_conf_model.stored_run_params
              (uuid, executor_name) with
          | none => .error .keyError
          | some stored_params =>
              let stored_params := filterStoredParams stored_params uuid
              let pm : ParameterModel := set_parameters stored_params
              let st := { st with
                parameter_model := pm,
                parameters_combo :=
                  { st.parameters_combo with
                    items := pm.map (fun (e : PresetEntry) => e.name) } }
              let selected_params :=
                st.run_conf_model.get_last_used_execution_params
                  uuid executor_name
              let index :=
                get_parameters_index_by_uuid st.parameter_model
                  selected_params
              let st :=
                if st.parameters_combo.items.length = 0 then
                  { st with index_to_select := some (some index) }
                else st
              .ok { st with
                parameters_combo :=
                  st.parameters_combo.setCurrentIndex index }
        else .ok st

/-- `RunDialog.accept` (lines 733-797): OR the Save flag into the status,
auto-name the preset "Custom" when the name is blank and the widget
configuration differs from the defaults, resolve the name to an existing
preset's identifier or mint a fresh one, read the working-directory
controls back, and record the result tuple scoped to the current file's
uuid before closing.  `freshUuid` is the `uuid4()` oracle. -/
def RunDialog.accept (st : RunDialog) (freshUuid : String) :
    Except PyError RunDialog :=
  let st := { st with status := st.status ||| RunDialogStatus.Save }
  match st.current_widget with
  | none => .error .attributeError
  | some w =>
      let default_conf := w.default_conf
      let widget_conf := w.current_conf
      let given_name := st.name_params_text
      let given_name :=
        if given_name = "" ∧ widget_conf ≠ some default_conf then "Custom"
        else given_name
      let idx :=
        if given_name ≠ "" then
          get_parameters_index_by_name st.parameter_model given_name
        else st.parameters_combo.currentIndex
      match (if idx = -1 then some (freshUuid, given_name)
             else get_parameters_uuid_name st.parameter_model idx) with
      | none => .error .indexError
      | some un =>
          let uuid := un.1
          let name := un.2
          let cwd_opts := readWdirControls st.wdir
          let exec_params : RunExecutionParameters :=
            { working_dir := cwd_opts, executor_params := widget_conf }
          match listGetInt st.run_conf_model.metadata_by_index
              st.configuration_combo.currentIndex with
          | none => .error .indexError
          | some metadata_info =>
              match listGetInt st.executors_model
                  st.executor_combo.currentIndex with
              | none => .error .indexError
              | some ex =>
                  let executor_name := ex.1
                  let ext_exec_params : ExtendedRunExecutionParameters :=
                    { uuid := uuid, name := name, params := exec_params,
                      file_uuid := some metadata_info.uuid }
                  .ok { st with
                        saved_conf := some (metadata_info.uuid,
                          executor_name, ext_exec_params),
                        closed := true }

/-- State touched by `select_directory` (identical in
`ExecutionParametersDialog`, lines 365-373, and `RunDialog`,
lines 601-609): the path text field and the `dir` attribute. -/
structure DirSelectState where
  wd_edit : String
  dir : Option String
deriving DecidableEq, Repr

/-- `select_directory`: seed the modal picker with the field value when
it denotes an existing directory, else with `getcwd_or_home()`; an empty
pick (cancel) changes nothing, a non-empty pick is stored in the field
and in `dir`.  `isdir`, `cwd_or_home` and `pick` are oracles for the file
system and the modal picker. -/
def select_directory (isdir : String → Bool) (cwd_or_home : String)
    (pick : String → String) (st : DirSelectState) : DirSelectState :=
  let basedir := st.wd_edit
  let basedir := if isdir basedir then basedir else cwd_or_home
  let directory := pick basedir
  if directory = "" then st
  else { st with wd_edit := directory, dir := some directory }

/-- Shared concrete base state of the single-use editor for witnesses and
counterexamples. -/
def epBase : ExecutionParametersDialog :=
  { executor_params := [],
    extensions := ["py"],
    contexts := [("py", ["script", "cell"])],
    default_params := none,
    extension := none,
    context := none,
    extension_combo := { items := ["py"], currentIndex := 0 },
    context_combo := { items := [], currentIndex := -1 },
    selected_extension := "",
    selected_context := "",
    current_widget := none,
    wdir := { file_dir_radio := true, cwd_radio := false,
              fixed_dir_radio := false, wd_edit := "" },
    executor_group_enabled := true,
    wdir_group_enabled := true,
    ok_enabled := true,
    store_params_text := "",
    placeholder_text := "",
    status := 0,
    saved_conf := none,
    closed := false }

/-- Concrete state for the C2 counterexample: the mapping assigns the
empty context list to extension "py". -/
def c2EmptyCtxState : ExecutionParametersDialog :=
  { epBase with contexts := [("py", [])] }

/-- Result state of `extension_changed` for the C2 amended-claim
witness. -/
def c2WitnessResult : ExecutionParametersDialog :=
  (epBase.extension_changed 0).getD epBase

/-- Prior parameter set used by the C1 witness. -/
def c1Dp : ExtendedRunExecutionParameters :=
  { uuid := "uuid-1", name := "ps-1",
    params :=
      { working_dir := { source := WorkingDirSource.CurrentDirectory,
                         path := none },
        executor_params := some [("opt", 2)] },
    file_uuid := none }

/-- Concrete state for the C1 witness: a prior parameter set whose key
set matches the widget defaults. -/
def c1State : ExecutionParametersDialog :=
  { epBase with
    executor_params :=
      [(("py", "script"),
        { requires_cwd := true, configuration_widget := some [("opt", 1)] })],
    default_params := some c1Dp,
    selected_extension := "py",
    context_combo := { items := ["script"], currentIndex := 0 } }

/-- Result state of `context_changed` for the C1 witness. -/
def c1Result : ExecutionParametersDialog :=
  (c1State.context_changed 0).getD c1State

/-- Concrete single-use-editor state with an injected widget and an empty
name field, shared by the C4 and C9 witnesses. -/
def epWidgetState : ExecutionParametersDialog :=
  { epBase with current_widget := some (ConfigWidget.fresh [("opt", 1)]) }

/-- Concrete run-configuration model for the C10 witness. -/
def rcmW : RunConfModel :=
  { metadata_by_index := [⟨"script", "py", "file-1"⟩],
    selected_metadata := ⟨"script", "py", "file-1"⟩,
    known_uuids := [],
    stored_run_params := [],
    last_used := [] }

/-- File-system oracle for the C8 witness. -/
def isdirW : String → Bool := fun s => s == "/proj"

/-- Picker oracle for the C8 witness. -/
def pickW : String → String :=
  fun s => if s == "/proj" then "/picked" else ""

/-- Dialog state for the C8 witness. -/
def dirStateW : DirSelectState := { wd_edit := "/proj", dir := none }

/-- Widget used by the C7 witness (current configuration differs from the
defaults). -/
def c7Widget : ConfigWidget :=
  { default_conf := [("a", 1)], current_conf := some [("a", 2)] }

/-- File metadata used by the C7 witness. -/
def c7Md : RunConfigMetadata := ⟨"script", "py", "file-1"⟩

/-- Executor entry used by the C7 witness. -/
def c7Ex : String × SupportedExecutionRunConfiguration :=
  ("exec-a", { requires_cwd := true, configuration_widget := some [("a", 1)] })

/-- Concrete run dialog state for the C7 witness: blank name field, no
stored preset named "Custom". -/
def rdW : RunDialog :=
  { run_conf_model := rcmW,
    executors_model := [c7Ex],
    parameter_model := [],
    configuration_combo := { items := ["f"], currentIndex := 0 },
    executor_combo := { items := ["exec-a"], currentIndex := 0 },
    parameters_combo := { items := [], currentIndex := -1 },
    name_params_text := "",
    current_widget := some c7Widget,
    wdir := { file_dir_radio := true, cwd_radio := false,
              fixed_dir_radio := false, wd_edit := "" },
    executor_group_visible := true,
    wdir_group_enabled := true,
    index_to_select := some none,
    status := 0,
    saved_conf := none,
    closed := false }

/-- Helper: a successful first-index search returns an in-range index
whose element satisfies the predicate. -/
theorem firstIdxWhere_some_spec {α : Type} (p : α → Bool) (l : List α)
    (n : Nat) (h : firstIdxWhere p l = some n) :
    n < l.length ∧ ∃ a, l.get? n = some a ∧ p a = true := by
  induction l generalizing n with
  | nil => simp [firstIdxWhere] at h
  | cons x xs ih =>
      cases hx : p x with
      | true =>
          simp only [firstIdxWhere, hx, if_true, Option.some.injEq] at h
          subst h
          exact ⟨Nat.succ_pos _, x, rfl, hx⟩
      | false =>
          simp only [firstIdxWhere, hx, Bool.false_eq_true, if_false,
            Option.map_eq_some'] at h
          obtain ⟨m, hm, rfl⟩ := h
          obtain ⟨hlt, a, ha, hpa⟩ := ih m hm
          exact ⟨Nat.succ_lt_succ hlt, a, by simpa using ha, hpa⟩

/-- Helper: if no element satisfies the predicate, the search fails. -/
theorem firstIdxWhere_none_of_all {α : Type} (p : α → Bool) (l : List α)
    (h : ∀ a ∈ l, p a = false) : firstIdxWhere p l = none := by
  induction l with
  | nil => rfl
  | cons x xs ih =>
      have hx := h x (List.mem_cons_self x xs)
      simp only [firstIdxWhere, hx, Bool.false_eq_true, if_false,
        Option.map_eq_none']
      exact ih (fun a ha => h a (List.mem_cons_of_mem _ ha))

/-- Helper: key-set comparison is reflexive. -/
theorem keysEqBool_self (a : Config) : keysEqBool a a = true := by
  simp only [keysEqBool, Bool.and_eq_true, List.all_eq_true]
  constructor <;> · intro k hk; simpa using hk

/-- Helper: the empty dict never has the key set of a non-empty dict. -/
theorem keysEqBool_nil_cons (x : String × Nat) (b : Config) :
    keysEqBool [] (x :: b) = false := by
  simp [keysEqBool]

/-- Claim C1: in `context_changed`, whenever a prior parameter set exists
for the selection, it is applied to the configuration widget via
`set_configuration` only if its key set equals the widget's default
configuration's key set; when the key sets differ the widget is left at
its default configuration. -/
theorem c1_prior_params_key_guard
    (st : ExecutionParametersDialog) (i : Int)
    (dp : ExtendedRunExecutionParameters) (m : Config)
    (st' : ExecutionParametersDialog)
    (hdp : st.default_params = some dp)
    (hm : dp.params.executor_params = some m)
    (hi : 0 ≤ i)
    (hcc : st.context_changed i = some st') :
    ∃ w, st'.current_widget = some w ∧
      (keysEqBool m w.default_conf = true → w.current_conf = some m) ∧
      (keysEqBool m w.default_conf = false →
        w.current_conf = some w.default_conf) := by
  unfold ExecutionParametersDialog.context_changed at hcc
  rw [if_neg (by omega)] at hcc
  simp only [hdp, hm, orElseDict] at hcc
  split at hcc
  · exact Option.noConfusion hcc
  · rename_i meta hfind
    split at hcc
    · exact Option.noConfusion hcc
    · rw [Option.some.injEq] at hcc
      subst hcc
      simp only [ConfigWidget.set_configuration, ConfigWidget.fresh]
      generalize (match meta.configuration_widget with
        | some d => d
        | none => ([] : Config)) = D
      by_cases hme : m.isEmpty = true
      · rw [List.isEmpty_iff] at hme
        subst hme
        simp only [List.isEmpty_nil, if_true, keysEqBool_self, ite_true]
        refine ⟨⟨D, some D⟩, rfl,
          fun (hk : keysEqBool [] D = true) => ?_, fun _ => rfl⟩
        show (⟨D, some D⟩ : ConfigWidget).current_conf = some []
        cases D with
        | nil => rfl
        | cons x xs =>
            rw [keysEqBool_nil_cons] at hk
            exact Bool.noConfusion hk
      · rw [Bool.not_eq_true] at hme
        simp only [hme, Bool.false_eq_true, ite_false]
        by_cases hk : keysEqBool m D = true
        · simp only [hk, ite_true]
          exact ⟨⟨D, some m⟩, rfl, fun _ => rfl,
            fun (hf : keysEqBool m D = false) =>
              Bool.noConfusion (hk.symm.trans hf)⟩
        · rw [Bool.not_eq_true] at hk
          simp only [hk, Bool.false_eq_true, ite_false]
          exact ⟨⟨D, some D⟩, rfl,
            fun (ht : keysEqBool m D = true) =>
              Bool.noConfusion (hk.symm.trans ht),
            fun _ => rfl⟩

/-- Helper: `setCurrentIndex` never changes the item list. -/
theorem ComboBox.setCurrentIndex_items (c : ComboBox) (i : Int) :
    (c.setCurrentIndex i).items = c.items := by
  unfold ComboBox.setCurrentIndex
  split <;> rfl

/-- Helper: `setCurrentIndex` with an in-range index selects it. -/
theorem ComboBox.setCurrentIndex_valid (c : ComboBox) (i : Int)
    (h1 : 0 ≤ i) (h2 : i < c.items.length) :
    (c.setCurrentIndex i).currentIndex = i := by
  unfold ComboBox.setCurrentIndex
  rw [if_pos ⟨h1, h2⟩]

/-- Claim C2 (amended): whenever `extension_changed` completes without an
exception and the new context list is non-empty, the context combo holds
exactly the mapping's context list for the new extension, the selection
is index 0 when no context was preselected (and points at the preselected
context otherwise), and the resulting selection is a valid index. -/
theorem c2_amended_reset_to_valid_index
    (st : ExecutionParametersDialog) (i : Int)
    (st' : ExecutionParametersDialog)
    (hi : 0 ≤ i)
    (hec : st.extension_changed i = some st')
    (hne : st'.context_combo.items ≠ []) :
    dictFindBy st.contexts (st.extension_combo.itemText i) =
        some st'.context_combo.items ∧
    (st.context = none → st'.context_combo.currentIndex = 0) ∧
    (∀ ctx, st.context = some ctx →
      st'.context_combo.itemText st'.context_combo.currentIndex = ctx) ∧
    0 ≤ st'.context_combo.currentIndex ∧
    st'.context_combo.currentIndex < st'.context_combo.items.length := by
  unfold ExecutionParametersDialog.extension_changed at hec
  rw [if_neg (by omega)] at hec
  simp only [] at hec
  cases hfind : dictFindBy st.contexts (st.extension_combo.itemText i) with
  | none => rw [hfind] at hec; exact Option.noConfusion hec
  | some ctxs =>
    rw [hfind] at hec
    simp only [] at hec
    have hA : (⟨ctxs, -1⟩ : ComboBox).setCurrentIndex (-1) = ⟨ctxs, -1⟩ := by
      unfold ComboBox.setCurrentIndex
      rw [if_neg (by omega)]
    cases hctx : st.context with
    | none =>
        rw [hctx] at hec
        simp only [Option.some.injEq] at hec
        subst hec
        have hne' : ctxs ≠ [] := by
          simpa only [ComboBox.setCurrentIndex_items] using hne
        have hlen : 0 < ctxs.length := List.length_pos.mpr hne'
        have hB : (⟨ctxs, -1⟩ : ComboBox).setCurrentIndex 0 = ⟨ctxs, 0⟩ := by
          unfold ComboBox.setCurrentIndex
          rw [if_pos ⟨by omega, by exact_mod_cast hlen⟩]
        refine ⟨?_, fun _ => ?_, fun ctx hcx => Option.noConfusion hcx,
          ?_, ?_⟩
        · simp only [hA, hB]
        · simp only [hA, hB]
        · simp only [hA, hB]; omega
        · simp only [hA, hB]; exact_mod_cast hlen
    | some ctx =>
        rw [hctx] at hec
        simp only [] at hec
        cases hfi : firstIdxWhere (fun c => c == ctx) ctxs with
        | none =>
            rw [hfi] at hec
            injection hec
        | some n =>
            rw [hfi] at hec
            injection hec with hec
            subst hec
            obtain ⟨hlt, a, ha, hpa⟩ := firstIdxWhere_some_spec _ ctxs n hfi
            have haeq : a = ctx := by simpa using hpa
            have hlen : ((n : Int)) < (ctxs.length : Int) := by
              exact_mod_cast hlt
            have hB : (⟨ctxs, -1⟩ : ComboBox).setCurrentIndex ((n : Int)) =
                ⟨ctxs, (n : Int)⟩ := by
              unfold ComboBox.setCurrentIndex
              rw [if_pos ⟨by omega, hlen⟩]
            refine ⟨?_, fun hn => Option.noConfusion hn, fun ctx' hcx => ?_,
              ?_, ?_⟩
            · simp only [hA, hB]
            · rw [Option.some.injEq] at hcx
              subst hcx
              simp only [hA, hB]
              unfold ComboBox.itemText
              rw [if_pos ⟨by omega, hlen⟩]
              rw [show ((n : Int)).toNat = n from rfl]
              rw [List.getD_eq_getElem?_getD, ← List.get?_eq_getElem?, ha]
              exact haeq
            · simp only [hA, hB]; omega
            · simp only [hA, hB]; exact hlen

/-- Claim C2 counterexample: when the new extension's context list is
empty, `extension_changed` completes, repopulates the combo with the
empty list, and the resulting selection is `-1` — neither index 0 nor a
valid index within the new (empty) context list, contrary to the claim
that the selection is always reset to a valid index 0. -/
theorem c2_counterexample_empty_context_list :
    (c2EmptyCtxState.extension_changed 0).map
        (fun s => (s.context_combo.items, s.context_combo.currentIndex)) =
      some ([], -1) := by decide

/-- Witness for the amended C2 at a concrete input. -/
theorem c2_amended_reset_to_valid_index_witness :
    ((0:Int) ≤ 0 ∧ epBase.extension_changed 0 = some c2WitnessResult ∧
      c2WitnessResult.context_combo.items ≠ []) ∧
    (dictFindBy epBase.contexts (epBase.extension_combo.itemText 0) =
        some c2WitnessResult.context_combo.items ∧
     (epBase.context = none →
       c2WitnessResult.context_combo.currentIndex = 0) ∧
     (∀ ctx, epBase.context = some ctx →
       c2WitnessResult.context_combo.itemText
         c2WitnessResult.context_combo.currentIndex = ctx) ∧
     0 ≤ c2WitnessResult.context_combo.currentIndex ∧
     c2WitnessResult.context_combo.currentIndex <
       c2WitnessResult.context_combo.items.length) :=
  ⟨⟨by decide, by decide, by decide⟩,
   c2_amended_reset_to_valid_index epBase 0 c2WitnessResult (by decide)
     (by decide) (by decide)⟩

/-- Witness for C1 at a concrete input. -/
theorem c1_prior_params_key_guard_witness :
    (c1State.default_params = some c1Dp ∧
     c1Dp.params.executor_params = some [("opt", 2)] ∧
     (0:Int) ≤ 0 ∧
     c1State.context_changed 0 = some c1Result) ∧
    (∃ w, c1Result.current_widget = some w ∧
      (keysEqBool [("opt", 2)] w.default_conf = true →
        w.current_conf = some [("opt", 2)]) ∧
      (keysEqBool [("opt", 2)] w.default_conf = false →
        w.current_conf = some w.default_conf)) :=
  ⟨⟨by decide, by decide, by decide, by decide⟩,
   c1_prior_params_key_guard c1State 0 c1Dp [("opt", 2)] c1Result
     (by decide) (by decide) (by decide) (by decide)⟩

/-- Claim C4: accepting the single-use editor with an empty name field
leaves the dialog open (the base-class accept is not reached) and
produces no result: the `get_configuration` getter (the `saved_conf`
it returns) still yields none. -/
theorem c4_empty_name_keeps_dialog_open
    (st : ExecutionParametersDialog) (w : ConfigWidget) (u : String)
    (hw : st.current_widget = some w)
    (hname : st.store_params_text = "")
    (hclosed : st.closed = false)
    (hsaved : st.saved_conf = none) :
    ∃ st', st.accept u = some st' ∧ st'.closed = false ∧
      st'.saved_conf = none := by
  unfold ExecutionParametersDialog.accept
  simp only [hw, hname]
  rw [if_pos trivial]
  exact ⟨_, rfl, hclosed, hsaved⟩

/-- Witness for C4 at a concrete input. -/
theorem c4_empty_name_keeps_dialog_open_witness :
    (epWidgetState.current_widget = some (ConfigWidget.fresh [("opt", 1)]) ∧
     epWidgetState.store_params_text = "" ∧ epWidgetState.closed = false ∧
     epWidgetState.saved_conf = none) ∧
    ∃ st', epWidgetState.accept "u-1" = some st' ∧ st'.closed = false ∧
      st'.saved_conf = none :=
  ⟨⟨by decide, by decide, by decide, by decide⟩,
   c4_empty_name_keeps_dialog_open epWidgetState
     (ConfigWidget.fresh [("opt", 1)]) "u-1"
     (by decide) (by decide) (by decide) (by decide)⟩

/-- Claim C9: a rejected accept (empty name) still mutates the status
field: the Save flag is OR-ed into the status before the name check, so
a failed accept does not leave the dialog's observable state unchanged
(whenever the Save bit was not already set). -/
theorem c9_failed_accept_sets_save_flag
    (st : ExecutionParametersDialog) (w : ConfigWidget) (u : String)
    (hw : st.current_widget = some w)
    (hname : st.store_params_text = "") :
    ∃ st', st.accept u = some st' ∧ st'.closed = st.closed ∧
      st'.status = st.status ||| RunDialogStatus.Save ∧
      (st.status = RunDialogStatus.Close → st'.status ≠ st.status) := by
  unfold ExecutionParametersDialog.accept
  simp only [hw, hname]
  rw [if_pos trivial]
  refine ⟨_, rfl, rfl, rfl, ?_⟩
  intro h0
  rw [h0]
  show RunDialogStatus.Close ||| RunDialogStatus.Save ≠ RunDialogStatus.Close
  decide

/-- Witness for C9 at a concrete input. -/
theorem c9_failed_accept_sets_save_flag_witness :
    (epWidgetState.current_widget = some (ConfigWidget.fresh [("opt", 1)]) ∧
     epWidgetState.store_params_text = "") ∧
    ∃ st', epWidgetState.accept "u-2" = some st' ∧
      st'.closed = epWidgetState.closed ∧
      st'.status = epWidgetState.status ||| RunDialogStatus.Save ∧
      (epWidgetState.status = RunDialogStatus.Close →
        st'.status ≠ epWidgetState.status) :=
  ⟨⟨by decide, by decide⟩,
   c9_failed_accept_sets_save_flag epWidgetState
     (ConfigWidget.fresh [("opt", 1)]) "u-2" (by decide) (by decide)⟩

/-- Claim C5: for every WorkingDirOpts whose source is
ConfigurationDirectory or CurrentDirectory, writing it into the three
radio selectors plus path field and reading back yields a WorkingDirOpts
with `path = none` and the same source. -/
theorem c5_wdir_roundtrip_non_custom (opts : WorkingDirOpts)
    (h : opts.source = WorkingDirSource.ConfigurationDirectory ∨
         opts.source = WorkingDirSource.CurrentDirectory) :
    ∃ w, setWdirControls opts = some w ∧
      readWdirControls w = { source := opts.source, path := none } := by
  rcases h with h | h
  · exact ⟨{ file_dir_radio := true, cwd_radio := false,
             fixed_dir_radio := false, wd_edit := "" },
           by simp [setWdirControls, h], by simp [readWdirControls, h]⟩
  · exact ⟨{ file_dir_radio := false, cwd_radio := true,
             fixed_dir_radio := false, wd_edit := "" },
           by simp [setWdirControls, h], by simp [readWdirControls, h]⟩

/-- Witness for C5 at a concrete input. -/
theorem c5_wdir_roundtrip_non_custom_witness :
    ∃ w, setWdirControls ⟨WorkingDirSource.CurrentDirectory, none⟩ = some w ∧
      readWdirControls w =
        { source := WorkingDirSource.CurrentDirectory, path := none } :=
  c5_wdir_roundtrip_non_custom ⟨WorkingDirSource.CurrentDirectory, none⟩
    (Or.inr rfl)

/-- Claim C6: for every WorkingDirOpts with source = CustomDirectory and a
non-empty path, writing it into the selectors plus path field and reading
back yields source = CustomDirectory and exactly the same path. -/
theorem c6_wdir_roundtrip_custom (p : String) (_hp : p ≠ "") :
    ∃ w, setWdirControls ⟨WorkingDirSource.CustomDirectory, some p⟩ = some w ∧
      readWdirControls w =
        { source := WorkingDirSource.CustomDirectory, path := some p } :=
  ⟨{ file_dir_radio := false, cwd_radio := false,
     fixed_dir_radio := true, wd_edit := p },
   by simp [setWdirControls], by simp [readWdirControls]⟩

/-- Witness for C6 at a concrete input. -/
theorem c6_wdir_roundtrip_custom_witness :
    ∃ w, setWdirControls
        ⟨WorkingDirSource.CustomDirectory, some "/tmp/proj"⟩ = some w ∧
      readWdirControls w =
        { source := WorkingDirSource.CustomDirectory,
          path := some "/tmp/proj" } :=
  c6_wdir_roundtrip_custom "/tmp/proj" (by decide)

/-- Claim C3: the preset list the run dialog hands to the parameter model
after an executor change (`display_executor_configuration`, lines
688-698, via `filterStoredParams`) contains exactly those stored presets
whose `file_uuid` is null or equals the current file's uuid; no preset
with any other `file_uuid` is ever included. -/
theorem c3_preset_filter_exact
    (stored : List (String × ExtendedRunExecutionParameters)) (F : String)
    (kv : String × ExtendedRunExecutionParameters) :
    kv ∈ filterStoredParams stored F ↔
      kv ∈ stored ∧ (kv.2.file_uuid = none ∨ kv.2.file_uuid = some F) := by
  simp [filterStoredParams, List.mem_filter]

/-- Claim C10: the deferred-selection attribute `index_to_select` is not
created by the constructor (`RunDialog.init`), and a parameter-selection
change with a non-negative index on a state where it was never assigned
reads a missing attribute: `update_parameter_set` fails with
AttributeError instead of acting as a no-op. -/
theorem c10_index_to_select_unassigned
    (rcm : RunConfModel)
    (em : List (String × SupportedExecutionRunConfiguration))
    (pm : ParameterModel) (st : RunDialog) (i : Int)
    (hattr : st.index_to_select = none) (hi : 0 ≤ i) :
    (RunDialog.init rcm em pm).index_to_select = none ∧
    st.update_parameter_set i = .error PyError.attributeError ∧
    ∀ st2, st.update_parameter_set i ≠ .ok st2 := by
  have herr : st.update_parameter_set i = .error PyError.attributeError := by
    unfold RunDialog.update_parameter_set
    rw [if_neg (by omega), hattr]
  exact ⟨rfl, herr,
    fun st2 h => by rw [herr] at h; exact Except.noConfusion h⟩

/-- Witness for C10 at a concrete input. -/
theorem c10_index_to_select_unassigned_witness :
    ((RunDialog.init rcmW [] []).index_to_select = none ∧ (0:Int) ≤ 0) ∧
    ((RunDialog.init rcmW [] []).index_to_select = none ∧
     (RunDialog.init rcmW [] []).update_parameter_set 0 =
        .error PyError.attributeError ∧
     ∀ st2, (RunDialog.init rcmW [] []).update_parameter_set 0 ≠
        .ok st2) :=
  ⟨⟨by decide, by decide⟩,
   c10_index_to_select_unassigned rcmW [] [] (RunDialog.init rcmW [] []) 0
     (by decide) (by decide)⟩

/-- Claim C8: directory browsing seeds the external picker with the
current path-field value when it denotes an existing directory and with
the home/current-directory fallback otherwise; if the picker returns no
directory (cancel), the path field—indeed the whole state—is left
unchanged, and a non-empty pick is stored. -/
theorem c8_select_directory_seed_and_cancel
    (isdir : String → Bool) (cwd_or_home : String)
    (pick : String → String) (st : DirSelectState) (seed : String)
    (hseed : seed = if isdir st.wd_edit then st.wd_edit else cwd_or_home) :
    (pick seed = "" → select_directory isdir cwd_or_home pick st = st) ∧
    (pick seed ≠ "" →
      select_directory isdir cwd_or_home pick st =
        { wd_edit := pick seed, dir := some (pick seed) }) := by
  subst hseed
  unfold select_directory
  simp only []
  constructor
  · intro h
    rw [h, if_pos rfl]
  · intro h
    rw [if_neg h]

/-- Witness for C8 at a concrete input. -/
theorem c8_select_directory_witness :
    ("/proj" = if isdirW dirStateW.wd_edit then dirStateW.wd_edit
               else "/home/u") ∧
    ((pickW "/proj" = "" →
        select_directory isdirW "/home/u" pickW dirStateW = dirStateW) ∧
     (pickW "/proj" ≠ "" →
        select_directory isdirW "/home/u" pickW dirStateW =
          { wd_edit := pickW "/proj", dir := some (pickW "/proj") })) :=
  ⟨by decide,
   c8_select_directory_seed_and_cancel isdirW "/home/u" pickW dirStateW
     "/proj" (by decide)⟩

/-- Helper: the name lookup of the parameter model misses. -/
theorem get_parameters_index_by_name_eq_neg (pm : ParameterModel)
    (name : String)
    (h : firstIdxWhere (fun e => e.name == name) pm = none) :
    get_parameters_index_by_name pm name = -1 := by
  unfold get_parameters_index_by_name
  rw [h]

/-- Helper: the name lookup of the parameter model hits index `n`. -/
theorem get_parameters_index_by_name_eq_idx (pm : ParameterModel)
    (name : String) (n : Nat)
    (h : firstIdxWhere (fun e => e.name == name) pm = some n) :
    get_parameters_index_by_name pm name = (n : Int) := by
  unfold get_parameters_index_by_name
  rw [h]

/-- Claim C7: accepting the run dialog with a blank name field and a
widget configuration that differs from the widget's defaults saves a
preset named "Custom"; when no stored preset carries that name a fresh
identifier is generated, while an existing preset named "Custom"
contributes its own identifier (and name). -/
theorem c7_blank_name_custom_preset
    (st : RunDialog) (w : ConfigWidget) (freshUuid : String)
    (md : RunConfigMetadata)
    (ex : String × SupportedExecutionRunConfiguration)
    (hw : st.current_widget = some w)
    (hname : st.name_params_text = "")
    (hconf : w.current_conf ≠ some w.default_conf)
    (hmd : listGetInt st.run_conf_model.metadata_by_index
      st.configuration_combo.currentIndex = some md)
    (hex : listGetInt st.executors_model st.executor_combo.currentIndex =
      some ex) :
    ∃ st' eep, st.accept freshUuid = .ok st' ∧
      st'.saved_conf = some (md.uuid, ex.1, eep) ∧
      eep.name = "Custom" ∧
      eep.file_uuid = some md.uuid ∧
      ((∀ e ∈ st.parameter_model, e.name ≠ "Custom") →
        eep.uuid = freshUuid) ∧
      (∀ n e, firstIdxWhere (fun e => e.name == "Custom")
            st.parameter_model = some n →
        st.parameter_model.get? n = some e →
        eep.uuid = e.uuid ∧ eep.name = e.name) := by
  unfold RunDialog.accept
  simp only [hw, hname]
  have hgn : True ∧ w.current_conf ≠ some w.default_conf := ⟨trivial, hconf⟩
  rw [if_pos hgn]
  have hcu : ("Custom" : String) ≠ "" := by decide
  rw [if_pos hcu]
  cases hfi : firstIdxWhere
      (fun e => e.name == "Custom") st.parameter_model with
  | none =>
      rw [get_parameters_index_by_name_eq_neg _ _ hfi]
      have hm1 : (-1 : Int) = -1 := rfl
      rw [if_pos hm1]
      rw [hmd, hex]
      refine ⟨_, _, rfl, rfl, rfl, rfl, fun _ => rfl, ?_⟩
      intro n e hfi' _
      exact Option.noConfusion hfi'
  | some n =>
      rw [get_parameters_index_by_name_eq_idx _ _ n hfi]
      have hne : ¬((n : Int) = -1) := by omega
      rw [if_neg hne]
      obtain ⟨hlt, e0, he0, hpe⟩ :=
        firstIdxWhere_some_spec _ st.parameter_model n hfi
      have hname0 : e0.name = "Custom" := by simpa using hpe
      have hun : get_parameters_uuid_name st.parameter_model ((n : Int)) =
          some (e0.uuid, e0.name) := by
        unfold get_parameters_uuid_name listGetInt
        rw [if_neg (by omega : ¬((n : Int) < 0))]
        rw [show ((n : Int)).toNat = n from rfl]
        rw [he0]
        rfl
      rw [hun]
      rw [hmd, hex]
      refine ⟨_, _, rfl, rfl, hname0, rfl, ?_, ?_⟩
      · intro hall
        exact absurd hname0 (hall e0 (List.get?_mem he0))
      · intro n' e' hfi' he'
        rw [Option.some.injEq] at hfi'
        subst hfi'
        rw [he0] at he'
        rw [Option.some.injEq] at he'
        subst he'
        exact ⟨rfl, rfl⟩

/-- Witness for C7 at a concrete input. -/
theorem c7_blank_name_custom_preset_witness :
    (rdW.current_widget = some c7Widget ∧
     rdW.name_params_text = "" ∧
     c7Widget.current_conf ≠ some c7Widget.default_conf ∧
     listGetInt rdW.run_conf_model.metadata_by_index
       rdW.configuration_combo.currentIndex = some c7Md ∧
     listGetInt rdW.executors_model rdW.executor_combo.currentIndex =
       some c7Ex) ∧
    (∃ st' eep, rdW.accept "fresh-1" = .ok st' ∧
      st'.saved_conf = some (c7Md.uuid, c7Ex.1, eep) ∧
      eep.name = "Custom" ∧
      eep.file_uuid = some c7Md.uuid ∧
      ((∀ e ∈ rdW.parameter_model, e.name ≠ "Custom") →
        eep.uuid = "fresh-1") ∧
      (∀ n e, firstIdxWhere (fun e => e.name == "Custom")
            rdW.parameter_model = some n →
        rdW.parameter_model.get? n = some e →
        eep.uuid = e.uuid ∧ eep.name = e.name)) :=
  ⟨⟨by decide, by decide, by decide, by decide, by decide⟩,
   c7_blank_name_custom_preset rdW c7Widget "fresh-1" c7Md c7Ex
     (by decide) (by decide) (by decide) (by decide) (by decide)⟩

end Spyder
